import Mathlib

/-!
Verification of the figure/caption extraction pipeline
(`src/image_extraction.py`, `src/pdf_to_images.py`).

Coordinates are modelled as rationals (`ℚ`): the Python code performs only
multiplications and comparisons on them, so the algebra is exact.
Region type tags are the strings the detector produces.
External collaborators (layout model, OCR engine, image cropping) are
passed in as function parameters; a collaborator call that may raise is
modelled as an `Option`-returning function.
-/

namespace DataExtraction

/-- A bounding box `(x1, y1, x2, y2)` in page pixel coordinates. -/
structure Box where
  x1 : ℚ
  y1 : ℚ
  x2 : ℚ
  y2 : ℚ
deriving DecidableEq, Repr

/-- A detected layout region: a type tag (`"Text"`, `"Title"`, `"Figure"`, or
anything else) together with its bounding box.  Mirrors the layoutparser
blocks consumed by `ImageExtraction`. -/
structure Block where
  type : String
  box : Box
deriving DecidableEq, Repr

/-! ## Block partitioning (`ImageExtraction.return_blocks`, lines 92-119)

The Python loop appends each block to one of three accumulator lists
according to its `type` tag, checking `'Figure'`, then `'Text'`, then
`'Title'`; any other tag falls through all branches and is dropped. -/

/-- The loop body of `return_blocks`: one pass over the layout, appending each
block to the accumulator matching its type tag, in input order. -/
def returnBlocksLoop : List Block → List Block → List Block → List Block →
    List Block × List Block × List Block
  | [], textAcc, figAcc, titleAcc => (textAcc, figAcc, titleAcc)
  | b :: rest, textAcc, figAcc, titleAcc =>
    if b.type = "Figure" then
      returnBlocksLoop rest textAcc (figAcc ++ [b]) titleAcc
    else if b.type = "Text" then
      returnBlocksLoop rest (textAcc ++ [b]) figAcc titleAcc
    else if b.type = "Title" then
      returnBlocksLoop rest textAcc figAcc (titleAcc ++ [b])
    else
      returnBlocksLoop rest textAcc figAcc titleAcc

/-- `return_blocks`' categorization of a layout into
`(text_blocks, figure_blocks, title_blocks)`. -/
def partitionBlocks (layout : List Block) : List Block × List Block × List Block :=
  returnBlocksLoop layout [] [] []

/-! ## Title association (`ImageExtraction.identify_title`, lines 121-152) -/

/-- The acceptance test of `identify_title` for one candidate title block:
`x_match` is `figure.x1 * (1 - x_tolerance) <= title.x1 <= figure.x1 * (1 + x_tolerance)`
and `y_match` is `figure.y2 <= title.y1 <= figure.y2 * (1 + y_tolerance)`. -/
def matchesTitle (fig : Box) (xTol yTol : ℚ) (b : Block) : Bool :=
  (decide (fig.x1 * (1 - xTol) ≤ b.box.x1) && decide (b.box.x1 ≤ fig.x1 * (1 + xTol))) &&
  (decide (fig.y2 ≤ b.box.y1) && decide (b.box.y1 ≤ fig.y2 * (1 + yTol)))

/-- The result of `identify_title`: either a title block, or the string
sentinel `"No title block found"`. -/
inductive MatchResult where
  | found (b : Block)
  | noTitle
deriving DecidableEq, Repr

/-- The search loop of `identify_title`: scan the title group in order and
return the first block passing `matchesTitle`; if the group is exhausted,
return the sentinel. -/
def identifyTitleLoop (fig : Box) (xTol yTol : ℚ) : List Block → MatchResult
  | [] => .noTitle
  | b :: rest =>
    if matchesTitle fig xTol yTol b then .found b
    else identifyTitleLoop fig xTol yTol rest

/-! ## The `ImageExtraction` instance state

`__init__` (lines 44-48) sets `layout`, `page`, `text_blocks`, `figure_blocks`
and `title_blocks` to `None`.  The page image itself is opaque to the
verification: we record only whether one is loaded. -/

/-- The mutable fields of an `ImageExtraction` instance. -/
structure ExtractionState where
  layout : Option (List Block)
  pageLoaded : Bool
  text_blocks : Option (List Block)
  figure_blocks : Option (List Block)
  title_blocks : Option (List Block)
deriving DecidableEq, Repr

/-- The state right after `__init__` (lines 44-48): all five fields `None`. -/
def initState : ExtractionState :=
  { layout := none, pageLoaded := false,
    text_blocks := none, figure_blocks := none, title_blocks := none }

/-- The errors the Python methods raise: `ValueError` for a violated
precondition, and a generic wrapped `Exception` re-raised from a collaborator
failure. -/
inductive ExtErr where
  | valueError (msg : String)
  | wrapped (msg : String)
deriving DecidableEq, Repr

/-- `ImageExtraction.return_blocks` (lines 92-119): raises `ValueError` when no
layout is loaded, otherwise assigns the three partitioned groups together. -/
def return_blocks (s : ExtractionState) : Except ExtErr ExtractionState :=
  match s.layout with
  | none => .error (.valueError "No layout loaded. Call get_layout() first.")
  | some layout =>
    let groups := partitionBlocks layout
    .ok { s with
          text_blocks := some groups.1,
          figure_blocks := some groups.2.1,
          title_blocks := some groups.2.2 }

/-- `ImageExtraction.identify_title` (lines 121-152): raises `ValueError` when
`title_blocks` is `None`, otherwise runs the search loop (which cannot fail on
pure data, so the method's own exception wrapper is never exercised). -/
def identify_title (s : ExtractionState) (fig : Box) (xTol yTol : ℚ) :
    Except ExtErr MatchResult :=
  match s.title_blocks with
  | none => .error (.valueError "Title blocks not initialized. Call return_blocks() first.")
  | some titles => .ok (identifyTitleLoop fig xTol yTol titles)

/-! ## Caption/figure extraction (`ImageExtraction.get_text_and_image`, lines 155-202)

The crop of the padded title region, the OCR call, and the figure crop
(`get_image`) are collaborator calls that may raise; each is modelled as an
`Option`-returning function parameter.  `Img` abstracts the numpy image
arrays. -/

/-- The second loop of `get_text_and_image` (lines 178-197): for each
(figure, title-match) pair, skip it when the title is the sentinel; otherwise
pad-crop the title, OCR it and crop the figure, skipping the figure when any
of those collaborator calls fails; append `(text, figure_image)` on success. -/
def extractPairsLoop {Img : Type} (cropPadded : Block → Option Img)
    (ocr : Img → Option String) (cropFigure : Block → Option Img) :
    List (Block × MatchResult) → List (String × Img)
  | [] => []
  | (fig, title) :: rest =>
    match title with
    | .noTitle => extractPairsLoop cropPadded ocr cropFigure rest
    | .found t =>
      match cropPadded t with
      | none => extractPairsLoop cropPadded ocr cropFigure rest
      | some segment =>
        match ocr segment with
        | none => extractPairsLoop cropPadded ocr cropFigure rest
        | some text =>
          match cropFigure fig with
          | none => extractPairsLoop cropPadded ocr cropFigure rest
          | some figImg =>
            (text, figImg) :: extractPairsLoop cropPadded ocr cropFigure rest

/-- `ImageExtraction.get_text_and_image` (lines 155-202): raises `ValueError`
when `figure_blocks` is `None`; the first loop resolves each figure's title via
`identify_title` with the default tolerances (a `ValueError` from it is caught
by the outer handler and re-raised as a wrapped `Exception`); the second loop
is `extractPairsLoop`. -/
def get_text_and_image {Img : Type} (s : ExtractionState)
    (cropPadded : Block → Option Img) (ocr : Img → Option String)
    (cropFigure : Block → Option Img) :
    Except ExtErr (List (String × Img)) :=
  match s.figure_blocks with
  | none => .error (.valueError "Figure blocks not initialized. Call return_blocks() first.")
  | some figures =>
    match s.title_blocks with
    | none => .error (.wrapped "Text and image extraction failed")
    | some titles =>
      let figuresTitle :=
        figures.map (fun f => (f, identifyTitleLoop f.box (2/10) (2/10) titles))
      .ok (extractPairsLoop cropPadded ocr cropFigure figuresTitle)

/-! ## Padded title cropping (lines 181-184)

The source pads the matched title block by 5 pixels on each side and crops the
page.  The padding and cropping primitives live in the external layout
library, not in `src/`; they are modelled from the spec. -/

/-- Modelled from the spec: the external layout library's block padding, as used
at line 183 with its default safe mode — each side grows by the given margin
and the lower-left corner is clamped at the page origin (never negative). -/
def padBox (b : Box) (left right top bottom : ℚ) : Box :=
  { x1 := max 0 (b.x1 - left),
    y1 := max 0 (b.y1 - top),
    x2 := b.x2 + right,
    y2 := b.y2 + bottom }

/-- Modelled from the spec: cropping a box out of a `W × H` page image
(line 184) — the region actually read is the box intersected with the page
bounds, so it never exceeds them. -/
def cropToPage (W H : ℚ) (b : Box) : Box :=
  { x1 := max 0 (min b.x1 W),
    y1 := max 0 (min b.y1 H),
    x2 := max 0 (min b.x2 W),
    y2 := max 0 (min b.y2 H) }

/-- The padded title region extracted at lines 182-184: pad by exactly 5 pixels
on all four sides, then crop from the `W × H` page. -/
def paddedTitleRegion (W H : ℚ) (title : Box) : Box :=
  cropToPage W H (padBox title 5 5 5 5)

/-! ## PDF rasterization (`src/pdf_to_images.py`)

Pages and the filesystem write are opaque: a page is a value of an abstract
type and saving is a collaborator call that may fail.  The loop of
`_convert_and_save_images` (lines 28-37) appends `page{i}.jpg` to
`image_list` and then saves; the first failed save raises, which aborts the
constructor (lines 20-26), so a caller never observes a partially-built
object. -/

/-- The filename for page `i` (line 32). -/
def pageFilename (i : ℕ) : String :=
  "page" ++ toString i ++ ".jpg"

/-- The loop of `_convert_and_save_images` (lines 30-37): for each page in
order, append its filename to the accumulated `image_list`, attempt the save
(`save i page` succeeds or fails; on success the file `page{i}.jpg` is
written), and raise on the first failure.  On success of the whole loop,
returns the final `image_list` together with the list of files actually
written. -/
def convertAndSaveLoop {Pg : Type} (save : ℕ → Pg → Bool) :
    List Pg → ℕ → List String → List String →
    Except String (List String × List String)
  | [], _, acc, written => .ok (acc, written)
  | pg :: rest, i, acc, written =>
    let acc' := acc ++ [pageFilename i]
    if save i pg then
      convertAndSaveLoop save rest (i + 1) acc' (written ++ [pageFilename i])
    else
      .error ("Failed to save page " ++ toString i)

/-- `PDFToImages.__init__` + `get_image_paths`: run the save loop over all
pages starting at index 0; if it raises, construction fails and no path list
is observable; otherwise `get_image_paths` returns the accumulated list. -/
def pdfToImagePaths {Pg : Type} (save : ℕ → Pg → Bool) (pages : List Pg) :
    Except String (List String × List String) :=
  convertAndSaveLoop save pages 0 [] []

/-! ## State transitions of an `ImageExtraction` instance

Only `get_layout` (lines 50-68) and `return_blocks` (lines 92-119) assign to
instance fields.  `get_layout` assigns `self.page` and then `self.layout`;
if detection fails after the page was opened, only `page` has changed.  Every
failing path and every read-only method leaves the remaining fields as they
were. -/

/-- One public operation's effect on the instance fields. -/
inductive Step : ExtractionState → ExtractionState → Prop
  | getLayoutOk (s : ExtractionState) (l : List Block) :
      Step s { s with pageLoaded := true, layout := some l }
  | getLayoutDetectFail (s : ExtractionState) :
      Step s { s with pageLoaded := true }
  | returnBlocksOk (s s' : ExtractionState) :
      return_blocks s = .ok s' → Step s s'
  | noChange (s : ExtractionState) : Step s s

/-- States reachable from a freshly constructed instance by public
operations. -/
inductive Reachable : ExtractionState → Prop
  | init : Reachable initState
  | step {s s' : ExtractionState} : Reachable s → Step s s' → Reachable s'

/-! ## The spec-side admissibility predicate -/

/-- The spec's acceptance condition for a candidate title, stated as the raw
inequalities: horizontal alignment and vertical proximity within the
tolerances. -/
def admissible (fig : Box) (xTol yTol : ℚ) (b : Block) : Prop :=
  (fig.x1 * (1 - xTol) ≤ b.box.x1 ∧ b.box.x1 ≤ fig.x1 * (1 + xTol)) ∧
  (fig.y2 ≤ b.box.y1 ∧ b.box.y1 ≤ fig.y2 * (1 + yTol))

instance (fig : Box) (xTol yTol : ℚ) (b : Block) :
    Decidable (admissible fig xTol yTol b) := by
  unfold admissible
  infer_instance

/-- Geometric distance from a figure box to a candidate title block, measured
on the coordinates the matching rules inspect: the title's top-left corner
against the figure's left edge and bottom edge. -/
def titleDistance (fig : Box) (b : Block) : ℚ :=
  |b.box.x1 - fig.x1| + |b.box.y1 - fig.y2|

/-- `T` is a nearest admissible title for the figure within the group: it is
in the group, admissible, and no admissible member of the group is strictly
closer. -/
def isNearestAdmissible (fig : Box) (xTol yTol : ℚ) (titles : List Block)
    (T : Block) : Prop :=
  T ∈ titles ∧ admissible fig xTol yTol T ∧
    ∀ b ∈ titles, admissible fig xTol yTol b →
      titleDistance fig T ≤ titleDistance fig b

/-- The three block-group fields of an instance are either all `None` or all
assigned. -/
def blocksTogether (s : ExtractionState) : Prop :=
  (s.text_blocks = none ∧ s.figure_blocks = none ∧ s.title_blocks = none) ∨
  (∃ t f ti, s.text_blocks = some t ∧ s.figure_blocks = some f ∧
    s.title_blocks = some ti)

/-- The state reached by `get_layout` on an empty detection result followed by
`return_blocks`: the page is loaded and all three block groups are assigned
(empty). -/
def partitionedEmptyState : ExtractionState :=
  { layout := some [], pageLoaded := true,
    text_blocks := some [], figure_blocks := some [], title_blocks := some [] }

/-- The boolean test of the code agrees with the spec's inequalities. -/
theorem matchesTitle_iff_admissible (fig : Box) (xTol yTol : ℚ) (b : Block) :
    matchesTitle fig xTol yTol b = true ↔ admissible fig xTol yTol b := by
  simp [matchesTitle, admissible]

/-- The search loop is `List.find?` with the acceptance test. -/
theorem identifyTitleLoop_eq_find (fig : Box) (xTol yTol : ℚ) (titles : List Block) :
    identifyTitleLoop fig xTol yTol titles =
      (titles.find? (matchesTitle fig xTol yTol)).elim MatchResult.noTitle MatchResult.found := by
  induction titles with
  | nil => rfl
  | cons b rest ih =>
    by_cases h : matchesTitle fig xTol yTol b = true
    · simp [identifyTitleLoop, h]
    · simp [identifyTitleLoop, h, ih]

/-- The loop returns `found T` exactly when `T` occurs in the group, is
admissible, and every earlier-ordered block is inadmissible. -/
theorem identifyTitleLoop_found_iff (fig : Box) (xTol yTol : ℚ)
    (titles : List Block) (T : Block) :
    identifyTitleLoop fig xTol yTol titles = .found T ↔
      (admissible fig xTol yTol T ∧
        ∃ pre post, titles = pre ++ T :: post ∧
          ∀ b ∈ pre, ¬ admissible fig xTol yTol b) := by
  have key : ∀ pre post, titles = pre ++ T :: post →
      (∀ b ∈ pre, ¬ admissible fig xTol yTol b) → admissible fig xTol yTol T →
      titles.find? (matchesTitle fig xTol yTol) = some T := by
    rintro pre post rfl hpre hT
    rw [List.find?_append]
    have h1 : pre.find? (matchesTitle fig xTol yTol) = none := by
      rw [List.find?_eq_none]
      intro b hb
      simp [matchesTitle_iff_admissible, hpre b hb]
    rw [h1, List.find?_cons_of_pos _ ((matchesTitle_iff_admissible _ _ _ _).2 hT)]
    rfl
  rw [identifyTitleLoop_eq_find]
  rcases hf : titles.find? (matchesTitle fig xTol yTol) with _ | b
  · rw [List.find?_eq_none] at hf
    simp only [Option.elim]
    constructor
    · intro h
      exact absurd h (by simp)
    · rintro ⟨hT, pre, post, rfl, -⟩
      exact absurd ((matchesTitle_iff_admissible _ _ _ _).2 hT)
        (by simpa using hf T (by simp))
  · have hfs := hf
    rw [List.find?_eq_some] at hfs
    obtain ⟨hb, pre, post, heq, hpre⟩ := hfs
    simp only [Option.elim]
    constructor
    · rintro h
      cases h
      refine ⟨(matchesTitle_iff_admissible _ _ _ _).1 hb, pre, post, heq, fun c hc => ?_⟩
      have := hpre c hc
      simp only [Bool.not_eq_true'] at this
      simp [← matchesTitle_iff_admissible, this]
    · rintro ⟨hT, pre', post', heq', hpre'⟩
      have := key pre' post' heq' hpre' hT
      rw [hf] at this
      cases this
      rfl

/-- The loop returns the sentinel exactly when no block in the group is
admissible. -/
theorem identifyTitleLoop_noTitle_iff (fig : Box) (xTol yTol : ℚ)
    (titles : List Block) :
    identifyTitleLoop fig xTol yTol titles = .noTitle ↔
      ∀ b ∈ titles, ¬ admissible fig xTol yTol b := by
  rw [identifyTitleLoop_eq_find]
  rcases hf : titles.find? (matchesTitle fig xTol yTol) with _ | b
  · rw [List.find?_eq_none] at hf
    simp only [Option.elim]
    constructor
    · intro _ b hb
      simpa [matchesTitle_iff_admissible] using hf b hb
    · intro _
      trivial
  · have hmem := List.find?_some hf
    have hbmem := List.mem_of_find?_eq_some hf
    simp only [Option.elim]
    constructor
    · intro h
      exact absurd h (by simp)
    · intro hall
      exact absurd ((matchesTitle_iff_admissible _ _ _ _).1 hmem) (hall b hbmem)

/-! ## Partition lemmas -/

/-- The partition loop appends, to each accumulator, exactly the blocks of the
corresponding type tag, in input order. -/
theorem returnBlocksLoop_eq (l : List Block) :
    ∀ textAcc figAcc titleAcc,
      returnBlocksLoop l textAcc figAcc titleAcc =
        (textAcc ++ l.filter (fun b => b.type = "Text"),
         figAcc ++ l.filter (fun b => b.type = "Figure"),
         titleAcc ++ l.filter (fun b => b.type = "Title")) := by
  induction l with
  | nil => simp [returnBlocksLoop]
  | cons b rest ih =>
    intro textAcc figAcc titleAcc
    by_cases hF : b.type = "Figure"
    · have hT : ¬ b.type = "Text" := by simp [hF]
      have hTi : ¬ b.type = "Title" := by simp [hF]
      simp [returnBlocksLoop, hF, hT, hTi, ih, List.filter_cons]
    · by_cases hT : b.type = "Text"
      · have hTi : ¬ b.type = "Title" := by simp [hT]
        simp [returnBlocksLoop, hF, hT, hTi, ih, List.filter_cons]
      · by_cases hTi : b.type = "Title"
        · simp [returnBlocksLoop, hF, hT, hTi, ih, List.filter_cons]
        · simp [returnBlocksLoop, hF, hT, hTi, ih, List.filter_cons]

/-- `partitionBlocks` is typewise filtering. -/
theorem partitionBlocks_eq_filter (l : List Block) :
    partitionBlocks l =
      (l.filter (fun b => b.type = "Text"),
       l.filter (fun b => b.type = "Figure"),
       l.filter (fun b => b.type = "Title")) := by
  simpa using returnBlocksLoop_eq l [] [] []

/-! ## Claim theorems -/

/-- C1: for every figure bounding box, title group, and tolerances,
`identify_title`'s search returns title block `T` iff `T` occurs in the group,
satisfies both the horizontal condition
`figure.x1 * (1 - x_tolerance) ≤ T.x1 ≤ figure.x1 * (1 + x_tolerance)` and the
vertical condition `figure.y2 ≤ T.y1 ≤ figure.y2 * (1 + y_tolerance)`, and no
earlier-ordered title in the group satisfies both; if no title in the group
satisfies both, it returns the "no match" sentinel. -/
theorem identify_title_first_admissible (fig : Box) (xTol yTol : ℚ)
    (titles : List Block) (T : Block) :
    (identifyTitleLoop fig xTol yTol titles = .found T ↔
      ((fig.x1 * (1 - xTol) ≤ T.box.x1 ∧ T.box.x1 ≤ fig.x1 * (1 + xTol)) ∧
       (fig.y2 ≤ T.box.y1 ∧ T.box.y1 ≤ fig.y2 * (1 + yTol))) ∧
      ∃ pre post, titles = pre ++ T :: post ∧
        ∀ b ∈ pre, ¬ ((fig.x1 * (1 - xTol) ≤ b.box.x1 ∧ b.box.x1 ≤ fig.x1 * (1 + xTol)) ∧
                      (fig.y2 ≤ b.box.y1 ∧ b.box.y1 ≤ fig.y2 * (1 + yTol)))) ∧
    (identifyTitleLoop fig xTol yTol titles = .noTitle ↔
      ∀ b ∈ titles, ¬ ((fig.x1 * (1 - xTol) ≤ b.box.x1 ∧ b.box.x1 ≤ fig.x1 * (1 + xTol)) ∧
                       (fig.y2 ≤ b.box.y1 ∧ b.box.y1 ≤ fig.y2 * (1 + yTol)))) := by
  exact ⟨identifyTitleLoop_found_iff fig xTol yTol titles T,
         identifyTitleLoop_noTitle_iff fig xTol yTol titles⟩

/-- C3: `return_blocks` on a detected layout raises no error and places each
region whose type tag is `Text`, `Figure` or `Title` into exactly the output
group matching its tag, preserving the original relative order (each group is
the order-preserving filter of the layout by its tag); regions with any other
tag appear in no group. -/
theorem return_blocks_partitions (s : ExtractionState) (l : List Block)
    (h : s.layout = some l) :
    return_blocks s =
      .ok { s with
            text_blocks := some (l.filter (fun b => b.type = "Text")),
            figure_blocks := some (l.filter (fun b => b.type = "Figure")),
            title_blocks := some (l.filter (fun b => b.type = "Title")) } := by
  simp [return_blocks, h, partitionBlocks_eq_filter]

/-- Witness for C3 at a concrete layout containing all four tag kinds. -/
theorem return_blocks_partitions_witness :
    return_blocks { initState with
        layout := some [⟨"Text", ⟨0, 0, 1, 1⟩⟩, ⟨"Figure", ⟨0, 2, 1, 3⟩⟩,
                        ⟨"Title", ⟨0, 4, 1, 5⟩⟩, ⟨"List", ⟨0, 6, 1, 7⟩⟩] } =
      .ok { initState with
            layout := some [⟨"Text", ⟨0, 0, 1, 1⟩⟩, ⟨"Figure", ⟨0, 2, 1, 3⟩⟩,
                            ⟨"Title", ⟨0, 4, 1, 5⟩⟩, ⟨"List", ⟨0, 6, 1, 7⟩⟩],
            text_blocks := some [⟨"Text", ⟨0, 0, 1, 1⟩⟩],
            figure_blocks := some [⟨"Figure", ⟨0, 2, 1, 3⟩⟩],
            title_blocks := some [⟨"Title", ⟨0, 4, 1, 5⟩⟩] } := by
  rw [return_blocks_partitions _ _ rfl]
  simp [List.filter]

/-- C4: for every figure bounding box and tolerances, `identify_title` on a
state whose title group is empty returns the "no match" sentinel (inside a
normal `Except.ok` return — no error is raised). -/
theorem identify_title_empty_group (s : ExtractionState) (fig : Box)
    (xTol yTol : ℚ) (h : s.title_blocks = some []) :
    identify_title s fig xTol yTol = .ok .noTitle := by
  simp [identify_title, h, identifyTitleLoop]

/-- Witness for C4 at a concrete state and figure box. -/
theorem identify_title_empty_group_witness :
    identify_title { initState with title_blocks := some [] } ⟨10, 10, 50, 50⟩
      (2/10) (2/10) = .ok .noTitle :=
  identify_title_empty_group { initState with title_blocks := some [] }
    ⟨10, 10, 50, 50⟩ (2/10) (2/10) rfl

/-! ## Extraction loop lemmas -/

/-- The extraction loop never produces more pairs than it consumes. -/
theorem extractPairsLoop_length_le {Img : Type} (cropPadded : Block → Option Img)
    (ocr : Img → Option String) (cropFigure : Block → Option Img)
    (l : List (Block × MatchResult)) :
    (extractPairsLoop cropPadded ocr cropFigure l).length ≤ l.length := by
  induction l with
  | nil => simp [extractPairsLoop]
  | cons hd rest ih =>
    obtain ⟨fig, title⟩ := hd
    cases title with
    | noTitle =>
      simpa [extractPairsLoop] using Nat.le_succ_of_le ih
    | found t =>
      rcases hcp : cropPadded t with _ | segment
      · simpa [extractPairsLoop, hcp] using Nat.le_succ_of_le ih
      · rcases ho : ocr segment with _ | text
        · simpa [extractPairsLoop, hcp, ho] using Nat.le_succ_of_le ih
        · rcases hcf : cropFigure fig with _ | figImg
          · simpa [extractPairsLoop, hcp, ho, hcf] using Nat.le_succ_of_le ih
          · simpa [extractPairsLoop, hcp, ho, hcf] using ih

/-- Every pair the extraction loop produces arises from an input entry whose
title matched and whose collaborator calls all succeeded. -/
theorem extractPairsLoop_mem {Img : Type} (cropPadded : Block → Option Img)
    (ocr : Img → Option String) (cropFigure : Block → Option Img)
    (l : List (Block × MatchResult)) (p : String × Img)
    (hp : p ∈ extractPairsLoop cropPadded ocr cropFigure l) :
    ∃ fig t, (fig, MatchResult.found t) ∈ l ∧ cropFigure fig = some p.2 ∧
      ∃ segment, cropPadded t = some segment ∧ ocr segment = some p.1 := by
  induction l with
  | nil => simp [extractPairsLoop] at hp
  | cons hd rest ih =>
    obtain ⟨fig, title⟩ := hd
    cases title with
    | noTitle =>
      obtain ⟨f, t, hmem, h2, h3⟩ := ih (by simpa [extractPairsLoop] using hp)
      exact ⟨f, t, by simp [hmem], h2, h3⟩
    | found t =>
      rcases hcp : cropPadded t with _ | segment
      · obtain ⟨f, t', hmem, h2, h3⟩ := ih (by simpa [extractPairsLoop, hcp] using hp)
        exact ⟨f, t', by simp [hmem], h2, h3⟩
      · rcases ho : ocr segment with _ | text
        · obtain ⟨f, t', hmem, h2, h3⟩ := ih (by simpa [extractPairsLoop, hcp, ho] using hp)
          exact ⟨f, t', by simp [hmem], h2, h3⟩
        · rcases hcf : cropFigure fig with _ | figImg
          · obtain ⟨f, t', hmem, h2, h3⟩ :=
              ih (by simpa [extractPairsLoop, hcp, ho, hcf] using hp)
            exact ⟨f, t', by simp [hmem], h2, h3⟩
          · rw [extractPairsLoop] at hp
            simp only [hcp, ho, hcf, List.mem_cons] at hp
            rcases hp with rfl | hp
            · exact ⟨fig, t, by simp, by simpa using hcf, segment, hcp, ho⟩
            · obtain ⟨f, t', hmem, h2, h3⟩ := ih hp
              exact ⟨f, t', by simp [hmem], h2, h3⟩

/-- C2: whenever the figure and title groups are initialized, a failure on a
single figure (no title match, failed padded-title crop, failed OCR, or failed
figure crop) never aborts `get_text_and_image`: it returns normally, the
result has at most one pair per figure region, and every returned pair arises
from some figure region of the group via a matched title and successful
collaborator calls. -/
theorem get_text_and_image_isolates_failures {Img : Type} (s : ExtractionState)
    (figures titles : List Block) (cropPadded : Block → Option Img)
    (ocr : Img → Option String) (cropFigure : Block → Option Img)
    (hf : s.figure_blocks = some figures) (ht : s.title_blocks = some titles) :
    ∃ result, get_text_and_image s cropPadded ocr cropFigure = .ok result ∧
      result.length ≤ figures.length ∧
      ∀ p ∈ result, ∃ fig ∈ figures,
        cropFigure fig = some p.2 ∧
        ∃ t, identifyTitleLoop fig.box (2/10) (2/10) titles = .found t ∧
          ∃ segment, cropPadded t = some segment ∧ ocr segment = some p.1 := by
  have heq : get_text_and_image s cropPadded ocr cropFigure =
      .ok (extractPairsLoop cropPadded ocr cropFigure
        (figures.map (fun f => (f, identifyTitleLoop f.box (2/10) (2/10) titles)))) := by
    simp [get_text_and_image, hf, ht]
  refine ⟨_, heq, ?_, ?_⟩
  · calc (extractPairsLoop cropPadded ocr cropFigure
            (figures.map (fun f => (f, identifyTitleLoop f.box (2/10) (2/10) titles)))).length
        ≤ (figures.map (fun f => (f, identifyTitleLoop f.box (2/10) (2/10) titles))).length :=
          extractPairsLoop_length_le _ _ _ _
      _ = figures.length := by simp
  · intro p hp
    obtain ⟨fig, t, hmem, hcf, segment, hcp, ho⟩ :=
      extractPairsLoop_mem _ _ _ _ _ hp
    simp only [List.mem_map, Prod.mk.injEq] at hmem
    obtain ⟨f, hfmem, rfl, hloop⟩ := hmem
    exact ⟨f, hfmem, hcf, t, hloop, segment, hcp, ho⟩

/-- Witness for C2: a state with one matching figure-title pair and one figure
whose padded-title crop fails; the failing figure is skipped and the matching
one is extracted. -/
theorem get_text_and_image_isolates_failures_witness :
    ∃ result, get_text_and_image
        { initState with
          figure_blocks := some [⟨"Figure", ⟨100, 60, 300, 95⟩⟩],
          title_blocks := some [⟨"Title", ⟨100, 100, 150, 120⟩⟩] }
        (fun _ => (none : Option ℕ)) (fun _ => some "caption")
        (fun _ => some 7) = .ok result ∧
      result.length ≤ [(⟨"Figure", ⟨100, 60, 300, 95⟩⟩ : Block)].length ∧
      ∀ p ∈ result, ∃ fig ∈ [(⟨"Figure", ⟨100, 60, 300, 95⟩⟩ : Block)],
        (fun (_ : Block) => some 7) fig = some p.2 ∧
        ∃ t, identifyTitleLoop fig.box (2/10) (2/10)
            [⟨"Title", ⟨100, 100, 150, 120⟩⟩] = .found t ∧
          ∃ segment, (fun (_ : Block) => (none : Option ℕ)) t = some segment ∧
            (fun (_ : ℕ) => some "caption") segment = some p.1 :=
  get_text_and_image_isolates_failures
    { initState with
      figure_blocks := some [⟨"Figure", ⟨100, 60, 300, 95⟩⟩],
      title_blocks := some [⟨"Title", ⟨100, 100, 150, 120⟩⟩] }
    [⟨"Figure", ⟨100, 60, 300, 95⟩⟩] [⟨"Title", ⟨100, 100, 150, 120⟩⟩]
    (fun _ => none) (fun _ => some "caption") (fun _ => some 7) rfl rfl

/-- C5: the matched title's bounding box is expanded by exactly 5 pixels on
all four sides before cropping, and the region actually cropped is clamped to
the `W × H` page bounds: all four coordinates stay within `[0, W] × [0, H]`;
in particular a title box `(0, 0, 50, 20)` on a page of at least `55 × 25`
yields exactly `(0, 0, 55, 25)`, with no negative coordinate. -/
theorem padded_title_clamped (W H : ℚ) (t : Box) (hW : 0 ≤ W) (hH : 0 ≤ H) :
    (padBox t 5 5 5 5 =
      ⟨max 0 (t.x1 - 5), max 0 (t.y1 - 5), t.x2 + 5, t.y2 + 5⟩) ∧
    (0 ≤ (paddedTitleRegion W H t).x1 ∧ (paddedTitleRegion W H t).x1 ≤ W) ∧
    (0 ≤ (paddedTitleRegion W H t).y1 ∧ (paddedTitleRegion W H t).y1 ≤ H) ∧
    (0 ≤ (paddedTitleRegion W H t).x2 ∧ (paddedTitleRegion W H t).x2 ≤ W) ∧
    (0 ≤ (paddedTitleRegion W H t).y2 ∧ (paddedTitleRegion W H t).y2 ≤ H) ∧
    (55 ≤ W → 25 ≤ H → paddedTitleRegion W H ⟨0, 0, 50, 20⟩ = ⟨0, 0, 55, 25⟩) := by
  refine ⟨rfl, ?_, ?_, ?_, ?_, ?_⟩
  · exact ⟨le_max_left _ _, max_le hW (min_le_right _ _)⟩
  · exact ⟨le_max_left _ _, max_le hH (min_le_right _ _)⟩
  · exact ⟨le_max_left _ _, max_le hW (min_le_right _ _)⟩
  · exact ⟨le_max_left _ _, max_le hH (min_le_right _ _)⟩
  · intro hW55 hH25
    have h0W : (0 : ℚ) ≤ W := hW
    have h0H : (0 : ℚ) ≤ H := hH
    simp only [paddedTitleRegion, padBox, cropToPage]
    norm_num [min_eq_left, max_eq_left, min_eq_left hW55, min_eq_left hH25,
      min_eq_right h0W, min_eq_right h0H]

/-- Witness for C5 at a concrete 600 × 800 page and a concrete title box. -/
theorem padded_title_clamped_witness :
    (padBox ⟨10, 10, 50, 20⟩ 5 5 5 5 =
      ⟨max 0 ((10 : ℚ) - 5), max 0 ((10 : ℚ) - 5), 50 + 5, 20 + 5⟩) ∧
    (0 ≤ (paddedTitleRegion 600 800 ⟨10, 10, 50, 20⟩).x1 ∧
      (paddedTitleRegion 600 800 ⟨10, 10, 50, 20⟩).x1 ≤ 600) ∧
    (0 ≤ (paddedTitleRegion 600 800 ⟨10, 10, 50, 20⟩).y1 ∧
      (paddedTitleRegion 600 800 ⟨10, 10, 50, 20⟩).y1 ≤ 800) ∧
    (0 ≤ (paddedTitleRegion 600 800 ⟨10, 10, 50, 20⟩).x2 ∧
      (paddedTitleRegion 600 800 ⟨10, 10, 50, 20⟩).x2 ≤ 600) ∧
    (0 ≤ (paddedTitleRegion 600 800 ⟨10, 10, 50, 20⟩).y2 ∧
      (paddedTitleRegion 600 800 ⟨10, 10, 50, 20⟩).y2 ≤ 800) ∧
    (55 ≤ (600 : ℚ) → 25 ≤ (800 : ℚ) →
      paddedTitleRegion 600 800 ⟨0, 0, 50, 20⟩ = ⟨0, 0, 55, 25⟩) :=
  padded_title_clamped 600 800 ⟨10, 10, 50, 20⟩ (by norm_num) (by norm_num)

/-- C7: each operation invoked before its required precondition step raises
the distinct precondition-violation error (`ValueError`, never a silent
`None` dereference): `return_blocks` before layout detection,
`identify_title` before partitioning, and `get_text_and_image` before
partitioning. -/
theorem precondition_errors (s₁ s₂ s₃ : ExtractionState) (fig : Box)
    (xTol yTol : ℚ) (cropPadded : Block → Option ℕ) (ocr : ℕ → Option String)
    (cropFigure : Block → Option ℕ) :
    (s₁.layout = none →
      return_blocks s₁ =
        .error (.valueError "No layout loaded. Call get_layout() first.")) ∧
    (s₂.title_blocks = none →
      identify_title s₂ fig xTol yTol =
        .error (.valueError "Title blocks not initialized. Call return_blocks() first.")) ∧
    (s₃.figure_blocks = none →
      get_text_and_image s₃ cropPadded ocr cropFigure =
        .error (.valueError "Figure blocks not initialized. Call return_blocks() first.")) := by
  refine ⟨fun h₁ => ?_, fun h₂ => ?_, fun h₃ => ?_⟩
  · simp [return_blocks, h₁]
  · simp [identify_title, h₂]
  · simp [get_text_and_image, h₃]

/-- Witness for C7 at the freshly constructed state. -/
theorem precondition_errors_witness :
    (initState.layout = none →
      return_blocks initState =
        .error (.valueError "No layout loaded. Call get_layout() first.")) ∧
    (initState.title_blocks = none →
      identify_title initState ⟨0, 0, 1, 1⟩ (2/10) (2/10) =
        .error (.valueError "Title blocks not initialized. Call return_blocks() first.")) ∧
    (initState.figure_blocks = none →
      get_text_and_image initState (fun _ => some 0) (fun _ => some "")
          (fun _ => some 0) =
        .error (.valueError "Figure blocks not initialized. Call return_blocks() first.")) :=
  precondition_errors initState initState initState ⟨0, 0, 1, 1⟩ (2/10) (2/10)
    (fun _ => some 0) (fun _ => some "") (fun _ => some 0)

/-- With `figure.x1 = 0`, the acceptance test does not depend on the
horizontal tolerance, and passing it forces `title.x1 = 0`. -/
theorem matchesTitle_x1_zero (fig : Box) (hx : fig.x1 = 0) (xTol xTol' yTol : ℚ)
    (b : Block) :
    matchesTitle fig xTol yTol b = matchesTitle fig xTol' yTol b ∧
    (matchesTitle fig xTol yTol b = true → b.box.x1 = 0) := by
  constructor
  · simp [matchesTitle, hx]
  · intro h
    rw [matchesTitle_iff_admissible] at h
    obtain ⟨⟨h1, h2⟩, -⟩ := h
    rw [hx] at h1 h2
    simp only [zero_mul] at h1 h2
    exact le_antisymm h2 h1

/-- C10: for a figure box with `x1 = 0`, the horizontal window collapses to
the single value `0`: the search can return a title block only if that
title's `x1` is exactly `0`, and the result is the same for every horizontal
tolerance — increasing `x_tolerance` never admits additional matches. -/
theorem identify_title_x1_zero (fig : Box) (hx : fig.x1 = 0)
    (xTol xTol' yTol : ℚ) (titles : List Block) :
    (∀ T, identifyTitleLoop fig xTol yTol titles = .found T → T.box.x1 = 0) ∧
    identifyTitleLoop fig xTol yTol titles =
      identifyTitleLoop fig xTol' yTol titles := by
  constructor
  · intro T hT
    rw [identifyTitleLoop_found_iff] at hT
    obtain ⟨⟨⟨h1, h2⟩, -⟩, -⟩ := hT
    rw [hx] at h1 h2
    simp only [zero_mul] at h1 h2
    exact le_antisymm h2 h1
  · induction titles with
    | nil => rfl
    | cons b rest ih =>
      rw [identifyTitleLoop, identifyTitleLoop,
        (matchesTitle_x1_zero fig hx xTol xTol' yTol b).1, ih]

/-- Witness for C10: a figure at `x1 = 0` with one title at `x1 = 0` and one
at `x1 = 3`; the tolerances 0.2 and 100 give the same result. -/
theorem identify_title_x1_zero_witness :
    (∀ T, identifyTitleLoop ⟨0, 0, 50, 50⟩ (2/10) (2/10)
        [⟨"Title", ⟨3, 55, 40, 60⟩⟩, ⟨"Title", ⟨0, 55, 40, 60⟩⟩] = .found T →
      T.box.x1 = 0) ∧
    identifyTitleLoop ⟨0, 0, 50, 50⟩ (2/10) (2/10)
        [⟨"Title", ⟨3, 55, 40, 60⟩⟩, ⟨"Title", ⟨0, 55, 40, 60⟩⟩] =
      identifyTitleLoop ⟨0, 0, 50, 50⟩ 100 (2/10)
        [⟨"Title", ⟨3, 55, 40, 60⟩⟩, ⟨"Title", ⟨0, 55, 40, 60⟩⟩] :=
  identify_title_x1_zero ⟨0, 0, 50, 50⟩ rfl (2/10) 100 (2/10)
    [⟨"Title", ⟨3, 55, 40, 60⟩⟩, ⟨"Title", ⟨0, 55, 40, 60⟩⟩]

/-- C6 counterexample: a figure with two admissible titles, where the search
returns the first-ordered one even though the second is strictly closer — and
the returned title lies below the figure's bottom edge, not above it.  So the
association does not return "the nearest Title region above/left of the
figure". -/
theorem identify_title_not_nearest :
    identifyTitleLoop ⟨100, 0, 200, 100⟩ (2/10) (2/10)
        [⟨"Title", ⟨100, 120, 150, 140⟩⟩, ⟨"Title", ⟨100, 100, 150, 120⟩⟩] =
      .found ⟨"Title", ⟨100, 120, 150, 140⟩⟩ ∧
    ¬ isNearestAdmissible ⟨100, 0, 200, 100⟩ (2/10) (2/10)
        [⟨"Title", ⟨100, 120, 150, 140⟩⟩, ⟨"Title", ⟨100, 100, 150, 120⟩⟩]
        ⟨"Title", ⟨100, 120, 150, 140⟩⟩ ∧
    (⟨100, 0, 200, 100⟩ : Box).y2 < (⟨"Title", ⟨100, 120, 150, 140⟩⟩ : Block).box.y1 := by
  refine ⟨?_, ?_, by norm_num⟩
  · norm_num [identifyTitleLoop, matchesTitle]
  · intro h
    obtain ⟨-, -, hmin⟩ := h
    have := hmin ⟨"Title", ⟨100, 100, 150, 120⟩⟩ (by simp)
      (by norm_num [admissible])
    norm_num [titleDistance] at this

/-- C6 amended: for every figure with at least one admissible title in the
group, the association returns the first admissible title in group order —
which starts at or below the figure's bottom edge, and need not be the
nearest one. -/
theorem identify_title_first_in_order (fig : Box) (xTol yTol : ℚ)
    (titles : List Block) (h : ∃ b ∈ titles, admissible fig xTol yTol b) :
    ∃ T, identifyTitleLoop fig xTol yTol titles = .found T ∧
      admissible fig xTol yTol T ∧ fig.y2 ≤ T.box.y1 ∧
      ∃ pre post, titles = pre ++ T :: post ∧
        ∀ b ∈ pre, ¬ admissible fig xTol yTol b := by
  cases hres : identifyTitleLoop fig xTol yTol titles with
  | noTitle =>
    rw [identifyTitleLoop_noTitle_iff] at hres
    obtain ⟨b, hb, hadm⟩ := h
    exact absurd hadm (hres b hb)
  | found T =>
    rw [identifyTitleLoop_found_iff] at hres
    obtain ⟨hadm, pre, post, heq, hpre⟩ := hres
    exact ⟨T, rfl, hadm, hadm.2.1, pre, post, heq, hpre⟩

/-- Witness for the amended C6 at the counterexample's input: the returned
title is the first-ordered admissible one. -/
theorem identify_title_first_in_order_witness :
    ∃ T, identifyTitleLoop ⟨100, 0, 200, 100⟩ (2/10) (2/10)
        [⟨"Title", ⟨100, 120, 150, 140⟩⟩, ⟨"Title", ⟨100, 100, 150, 120⟩⟩] =
        .found T ∧
      admissible ⟨100, 0, 200, 100⟩ (2/10) (2/10) T ∧
      (⟨100, 0, 200, 100⟩ : Box).y2 ≤ T.box.y1 ∧
      ∃ pre post,
        [⟨"Title", ⟨100, 120, 150, 140⟩⟩, ⟨"Title", ⟨100, 100, 150, 120⟩⟩] =
          pre ++ T :: post ∧
        ∀ b ∈ pre, ¬ admissible ⟨100, 0, 200, 100⟩ (2/10) (2/10) b :=
  identify_title_first_in_order ⟨100, 0, 200, 100⟩ (2/10) (2/10)
    [⟨"Title", ⟨100, 120, 150, 140⟩⟩, ⟨"Title", ⟨100, 100, 150, 120⟩⟩]
    ⟨⟨"Title", ⟨100, 120, 150, 140⟩⟩, by simp, by norm_num [admissible]⟩

/-! ## Rasterization lemmas -/

/-- When every remaining save succeeds, the loop returns the accumulated list
extended by one sequentially named path per page, and the written files are
exactly those paths. -/
theorem convertAndSaveLoop_all_ok {Pg : Type} (save : ℕ → Pg → Bool) :
    ∀ (pages : List Pg) (k : ℕ) (acc written : List String),
      (∀ p ∈ pages.enumFrom k, save p.1 p.2 = true) →
      convertAndSaveLoop save pages k acc written =
        .ok (acc ++ (List.range' k pages.length).map pageFilename,
             written ++ (List.range' k pages.length).map pageFilename) := by
  intro pages
  induction pages with
  | nil => simp [convertAndSaveLoop]
  | cons pg rest ih =>
    intro k acc written hall
    have hk : save k pg = true := hall (k, pg) (by simp)
    rw [convertAndSaveLoop, if_pos hk,
      ih (k + 1) _ _ (fun p hp => hall p (by simp [hp]))]
    simp [List.range'_succ]

/-- A failed save anywhere in the remaining pages makes the loop raise. -/
theorem convertAndSaveLoop_error {Pg : Type} (save : ℕ → Pg → Bool) :
    ∀ (pages : List Pg) (k : ℕ) (acc written : List String),
      (∃ p ∈ pages.enumFrom k, save p.1 p.2 = false) →
      ∃ msg, convertAndSaveLoop save pages k acc written = .error msg := by
  intro pages
  induction pages with
  | nil => simp
  | cons pg rest ih =>
    intro k acc written hex
    by_cases hk : save k pg = true
    · obtain ⟨p, hp, hfail⟩ := hex
      simp only [List.enumFrom_cons, List.mem_cons] at hp
      rcases hp with rfl | hp
      · rw [hk] at hfail
        cases hfail
      · obtain ⟨msg, hmsg⟩ := ih (k + 1) (acc ++ [pageFilename k])
          (written ++ [pageFilename k]) ⟨p, hp, hfail⟩
        exact ⟨msg, by rw [convertAndSaveLoop, if_pos hk, hmsg]⟩
    · exact ⟨"Failed to save page " ++ toString k,
        by rw [convertAndSaveLoop, if_neg hk]⟩

/-- C8: rasterization either succeeds with exactly one path per page, named
`page0.jpg`, `page1.jpg`, ... in page order and equal to the list of files
written, or — as soon as any page's save fails — the whole conversion raises
an error: no page is silently skipped and no partial path list is returned. -/
theorem pdf_rasterization_all_or_nothing {Pg : Type} (save : ℕ → Pg → Bool)
    (pages : List Pg) :
    ((∀ p ∈ pages.enum, save p.1 p.2 = true) →
      pdfToImagePaths save pages =
        .ok ((List.range pages.length).map pageFilename,
             (List.range pages.length).map pageFilename)) ∧
    ((∃ p ∈ pages.enum, save p.1 p.2 = false) →
      ∃ msg, pdfToImagePaths save pages = .error msg) := by
  constructor
  · intro hall
    have := convertAndSaveLoop_all_ok save pages 0 [] []
      (by simpa [List.enum_eq_enumFrom] using hall)
    simpa [pdfToImagePaths, List.range_eq_range'] using this
  · intro hex
    exact convertAndSaveLoop_error save pages 0 [] []
      (by simpa [List.enum_eq_enumFrom] using hex)

/-- Witness for C8 on a concrete three-page document whose saves all
succeed. -/
theorem pdf_rasterization_all_or_nothing_witness :
    ((∀ p ∈ ([0, 1, 2] : List ℕ).enum, (fun (_ : ℕ) (_ : ℕ) => true) p.1 p.2 = true) →
      pdfToImagePaths (fun _ _ => true) ([0, 1, 2] : List ℕ) =
        .ok ((List.range ([0, 1, 2] : List ℕ).length).map pageFilename,
             (List.range ([0, 1, 2] : List ℕ).length).map pageFilename)) ∧
    ((∃ p ∈ ([0, 1, 2] : List ℕ).enum, (fun (_ : ℕ) (_ : ℕ) => true) p.1 p.2 = false) →
      ∃ msg, pdfToImagePaths (fun _ _ => true) ([0, 1, 2] : List ℕ) = .error msg) :=
  pdf_rasterization_all_or_nothing (fun _ _ => true) [0, 1, 2]

/-- Every single operation preserves the blocks-together invariant. -/
theorem step_preserves_blocksTogether {s s' : ExtractionState}
    (hs : Step s s') (h : blocksTogether s) : blocksTogether s' := by
  cases hs with
  | getLayoutOk l => exact h
  | getLayoutDetectFail => exact h
  | returnBlocksOk s' hok =>
    rw [return_blocks.eq_def] at hok
    rcases hlay : s.layout with _ | l
    · rw [hlay] at hok
      cases hok
    · rw [hlay] at hok
      simp only [Except.ok.injEq] at hok
      rw [← hok]
      exact Or.inr ⟨_, _, _, rfl, rfl, rfl⟩
  | noChange => exact h

/-- C9: in every reachable instance state the fields `text_blocks`,
`figure_blocks` and `title_blocks` are all `None` or all assigned (they start
as `None` together and only `return_blocks` assigns them, together); hence
whenever `get_text_and_image`'s precondition holds — `figure_blocks` is
assigned — `title_blocks` is assigned too, and the call returns normally:
`identify_title`'s not-initialized branch is unreachable from it. -/
theorem blocks_initialized_together (s : ExtractionState) (h : Reachable s) :
    blocksTogether s ∧
    ∀ (figures : List Block) (cropPadded : Block → Option ℕ)
      (ocr : ℕ → Option String) (cropFigure : Block → Option ℕ),
      s.figure_blocks = some figures →
      (∃ titles, s.title_blocks = some titles) ∧
      ∃ result, get_text_and_image s cropPadded ocr cropFigure = .ok result := by
  have hinv : blocksTogether s := by
    induction h with
    | init => exact Or.inl ⟨rfl, rfl, rfl⟩
    | step hr hs ih => exact step_preserves_blocksTogether hs ih
  refine ⟨hinv, fun figures cropPadded ocr cropFigure hf => ?_⟩
  rcases hinv with ⟨-, hnone, -⟩ | ⟨t, f, ti, -, -, hti⟩
  · rw [hf] at hnone
    cases hnone
  · refine ⟨⟨ti, hti⟩,
      extractPairsLoop cropPadded ocr cropFigure
        (figures.map (fun f => (f, identifyTitleLoop f.box (2/10) (2/10) ti))), ?_⟩
    simp [get_text_and_image, hf, hti]

/-- Witness for C9 at the state reached by `get_layout` on an empty layout
followed by `return_blocks`. -/
theorem blocks_initialized_together_witness :
    blocksTogether partitionedEmptyState ∧
    ∀ (figures : List Block) (cropPadded : Block → Option ℕ)
      (ocr : ℕ → Option String) (cropFigure : Block → Option ℕ),
      partitionedEmptyState.figure_blocks = some figures →
      (∃ titles, partitionedEmptyState.title_blocks = some titles) ∧
      ∃ result, get_text_and_image partitionedEmptyState cropPadded ocr
          cropFigure = .ok result :=
  blocks_initialized_together partitionedEmptyState
    (Reachable.step (Reachable.step Reachable.init (Step.getLayoutOk initState []))
      (Step.returnBlocksOk _ partitionedEmptyState rfl))

end DataExtraction
